import Mathlib

/-!
Verification of the exam-application backend (`backend/app.py`).

The file shallowly embeds the four Flask handlers as pure Lean functions:

* `register` / `login` over an explicit credential store
  (the Python module-level dict `users`, modelled as an association list
  that preserves insertion order),
* `get_questions` over the question bank,
* `submit_exam`, the scoring loop, with Python `KeyError` on a missing
  submission field modelled by `Except PyError`.

Machine-level details that the handlers do not touch (JWT token bytes,
CORS, process bootstrap) are outside the embedding; the token branch of
`login` records only the identity the token is created for.
-/

set_option autoImplicit false

namespace ExamApp

/-- A bank entry, mirroring the dict literals in `questions` in
`backend/app.py` (fields `id`, `question`, `options`, `correct_answer`). -/
structure Question where
  id : Nat
  question : String
  options : List String
  correct_answer : String
  deriving DecidableEq, Repr

/-- The shipped five-question bank (`questions` in `backend/app.py`). -/
def questions : List Question :=
  [ { id := 1
      question := "What is the capital of France?"
      options := ["Berlin", "Madrid", "Paris", "Rome"]
      correct_answer := "Paris" },
    { id := 2
      question := "Which planet is known as the Red Planet?"
      options := ["Earth", "Mars", "Jupiter", "Saturn"]
      correct_answer := "Mars" },
    { id := 3
      question := "What is the largest ocean on Earth?"
      options := ["Atlantic Ocean", "Indian Ocean", "Arctic Ocean", "Pacific Ocean"]
      correct_answer := "Pacific Ocean" },
    { id := 4
      question := "Who wrote \x27To Kill a Mockingbird\x27?"
      options := ["Harper Lee", "Mark Twain", "Ernest Hemingway", "F. Scott Fitzgerald"]
      correct_answer := "Harper Lee" },
    { id := 5
      question := "What is the square root of 64?"
      options := ["6", "7", "8", "9"]
      correct_answer := "8" } ]

/-- One element of the JSON array POSTed to `/api/submit`.  A field is
`none` when the JSON object lacks that key (Python then raises `KeyError`
on subscripting). -/
structure Submission where
  id : Option Nat
  selected_option : Option String
  deriving DecidableEq, Repr

/-- A Python exception escaping a handler.  `keyError k` models
`KeyError(k)` from `answer[k]`; Flask turns an uncaught exception into an
HTTP 500 response. -/
inductive PyError where
  | keyError : String → PyError
  deriving DecidableEq, Repr

/-- `question_map = {q["id"]: q for q in questions}` followed by subscript:
a dict comprehension keeps the last entry for a duplicate key, hence the
left fold in which a later match overrides an earlier one. -/
def question_map (qs : List Question) (i : Nat) : Option Question :=
  qs.foldl (fun acc q => if q.id == i then some q else acc) none

/-- Assignment `d[k] = v` on a Python dict (insertion-ordered, unique
keys): an existing key keeps its position and gets the new value, a fresh
key is appended. -/
def dictInsert : List (Nat × String) → Nat → String → List (Nat × String)
  | [], k, v => [(k, v)]
  | kv :: rest, k, v =>
    if kv.1 == k then (k, v) :: rest else kv :: dictInsert rest k v

/-- Subscript `d[k]` on the same dict, as an `Option`. -/
def dictLookup : List (Nat × String) → Nat → Option String
  | [], _ => none
  | kv :: rest, k => if kv.1 == k then some kv.2 else dictLookup rest k

/-- `answer[key]`: a present key yields its value, a missing key raises
`KeyError(key)`. -/
def getItem {α : Type} (v : Option α) (key : String) : Except PyError α :=
  match v with
  | some x => Except.ok x
  | none => Except.error (PyError.keyError key)

/-- Accumulator of the scoring loop: the local variables `score` and
`correct_answers` of `submit_exam`. -/
structure ScoreState where
  score : Nat
  correct_answers : List (Nat × String)
  deriving DecidableEq, Repr

/-- One iteration of `for answer in user_answers` in `submit_exam`:
read `answer["id"]` and `answer["selected_option"]` (each may raise
`KeyError`), and if the id is in `question_map`, record the bank answer
and bump the score on an exact string match. -/
def scoreStep (qs : List Question) (st : ScoreState) (answer : Submission) :
    Except PyError ScoreState := do
  let q_id ← getItem answer.id "id"
  let user_option ← getItem answer.selected_option "selected_option"
  match question_map qs q_id with
  | some q =>
    Except.ok
      { score := if user_option == q.correct_answer then st.score + 1 else st.score
        correct_answers := dictInsert st.correct_answers q_id q.correct_answer }
  | none => Except.ok st

/-- The whole `for` loop of `submit_exam`; an exception aborts the rest of
the loop (and the request). -/
def scoreLoop (qs : List Question) : List Submission → ScoreState → Except PyError ScoreState
  | [], st => Except.ok st
  | answer :: rest, st =>
    match scoreStep qs st answer with
    | Except.ok st' => scoreLoop qs rest st'
    | Except.error e => Except.error e

/-- The JSON body returned by `/api/submit` on success. -/
structure ScoringResult where
  score : Nat
  total : Nat
  correct_answers : List (Nat × String)
  deriving DecidableEq, Repr

/-- The `/api/submit` handler `submit_exam`, for an arbitrary bank `qs`:
`total = len(questions)`, then the accumulation loop over the posted
answers. -/
def submit_exam (qs : List Question) (user_answers : List Submission) :
    Except PyError ScoringResult :=
  match scoreLoop qs user_answers { score := 0, correct_answers := [] } with
  | Except.ok st =>
    Except.ok { score := st.score, total := qs.length, correct_answers := st.correct_answers }
  | Except.error e => Except.error e

/-- One element of the array returned by `/api/questions`: only `id`,
`question` and `options` are sent, never `correct_answer`. -/
structure PublicQuestion where
  id : Nat
  question : String
  options : List String
  deriving DecidableEq, Repr

/-- The `/api/questions` handler `get_questions`: the list comprehension
`[{"id": q["id"], "question": q["question"], "options": q["options"]} for q in questions]`. -/
def get_questions (qs : List Question) : List PublicQuestion :=
  qs.map (fun q => { id := q.id, question := q.question, options := q.options })

/-- The parsed JSON body of `/register` and `/login`; `data.get(k)` yields
`none` when the key is absent. -/
structure AuthRequest where
  username : Option String
  password : Option String
  deriving DecidableEq, Repr

/-- Python truthiness of `data.get(...)` for a string field: `None` and
the empty string are falsy. -/
def falsy : Option String → Bool
  | none => true
  | some s => s.isEmpty

/-- The credential store: the module-level dict `users`
(username to stored password), insertion-ordered. -/
abbrev UserStore := List (String × String)

/-- Membership test `username in users`. -/
def hasUser (users : UserStore) (u : String) : Bool :=
  users.any (fun kv => kv.1 == u)

/-- Subscript `users[username]` as an `Option`. -/
def userLookup : UserStore → String → Option String
  | [], _ => none
  | kv :: rest, u => if kv.1 == u then some kv.2 else userLookup rest u

/-- The three responses of the `/register` handler. -/
inductive RegisterResponse where
  /-- HTTP 400, `Username and password are required` -/
  | invalidInput : RegisterResponse
  /-- HTTP 409, `User already exists` -/
  | conflict : RegisterResponse
  /-- HTTP 201, `User registered successfully` -/
  | created : RegisterResponse
  deriving DecidableEq, Repr

/-- The HTTP status attached to each `/register` response. -/
def RegisterResponse.status : RegisterResponse → Nat
  | RegisterResponse.invalidInput => 400
  | RegisterResponse.conflict => 409
  | RegisterResponse.created => 201

/-- The `/register` handler: validate truthiness of both fields, reject a
duplicate username, otherwise store `users[username] = password` — the raw
password itself (the code comments that it stores plaintext "for
simplicity").  Returns the response and the updated store. -/
def register (users : UserStore) (data : AuthRequest) :
    RegisterResponse × UserStore :=
  match data.username, data.password with
  | some username, some password =>
    if username.isEmpty || password.isEmpty then (RegisterResponse.invalidInput, users)
    else if hasUser users username then (RegisterResponse.conflict, users)
    else (RegisterResponse.created, users ++ [(username, password)])
  | _, _ => (RegisterResponse.invalidInput, users)

/-- The three responses of the `/login` handler. -/
inductive LoginResponse where
  /-- HTTP 400, `Username and password are required` -/
  | invalidInput : LoginResponse
  /-- HTTP 401, `Invalid username or password` — the same response whether the
  username is unknown or the password wrong. -/
  | unauthorized : LoginResponse
  /-- HTTP 200, with `create_access_token(identity=username)` -/
  | token : String → LoginResponse
  deriving DecidableEq, Repr

/-- The HTTP status attached to each `/login` response. -/
def LoginResponse.status : LoginResponse → Nat
  | LoginResponse.invalidInput => 400
  | LoginResponse.unauthorized => 401
  | LoginResponse.token _ => 200

/-- The `/login` handler: validate truthiness of both fields, then
`if username not in users or users[username] != password: 401`, else issue
a token for `username`.  It never writes to the store. -/
def login (users : UserStore) (data : AuthRequest) : LoginResponse :=
  match data.username, data.password with
  | some username, some password =>
    if username.isEmpty || password.isEmpty then LoginResponse.invalidInput
    else
      match userLookup users username with
      | none => LoginResponse.unauthorized
      | some stored =>
        if stored == password then LoginResponse.token username
        else LoginResponse.unauthorized
  | _, _ => LoginResponse.invalidInput

/-- A submission object that carries both required keys. -/
def hasFields (a : Submission) : Bool :=
  a.id.isSome && a.selected_option.isSome

/-- A submission that the loop counts as correct: both fields present, the
id found in the bank, and the selected option equal (as a string) to the
bank answer. -/
def correctSub (qs : List Question) (a : Submission) : Bool :=
  match a.id, a.selected_option with
  | some i, some s =>
    match question_map qs i with
    | some q => s == q.correct_answer
    | none => false
  | _, _ => false

/-- A submission that writes the key `k` into `correct_answers`: it names
`k` and `k` is in the bank. -/
def hitsKey (qs : List Question) (k : Nat) (a : Submission) : Bool :=
  a.id == some k && (question_map qs k).isSome

/-! ### Helper lemmas about the dict operations and the scoring loop -/

theorem dictLookup_dictInsert (d : List (Nat × String)) (k k' : Nat) (v : String) :
    dictLookup (dictInsert d k v) k' = if k' = k then some v else dictLookup d k' := by
  induction d with
  | nil =>
    simp only [dictInsert, dictLookup, beq_iff_eq]
    by_cases h : k' = k
    · subst h; simp
    · simp [h, Ne.symm h]
  | cons kv rest ih =>
    simp only [dictInsert]
    by_cases h1 : kv.1 = k
    · simp only [h1, beq_self_eq_true, if_true, dictLookup, beq_iff_eq]
      by_cases h2 : k' = k
      · subst h2; simp [h1]
      · simp [h2, Ne.symm h2, h1]
    · simp only [beq_iff_eq, h1, if_false, dictLookup]
      by_cases h2 : kv.1 = k'
      · have hne : ¬k' = k := fun hh => h1 (h2.trans hh)
        simp [h2, hne]
      · simp [h2, ih]

theorem dictInsert_dictInsert_same (d : List (Nat × String)) (k : Nat) (v : String) :
    dictInsert (dictInsert d k v) k v = dictInsert d k v := by
  induction d with
  | nil => simp [dictInsert]
  | cons kv rest ih =>
    by_cases h : kv.1 = k
    · simp [dictInsert, h]
    · simp [dictInsert, h, ih]

theorem scoreStep_eq (qs : List Question) (st : ScoreState) (i : Nat) (s : String) :
    scoreStep qs st { id := some i, selected_option := some s } =
      match question_map qs i with
      | some q =>
        Except.ok
          { score := if s == q.correct_answer then st.score + 1 else st.score
            correct_answers := dictInsert st.correct_answers i q.correct_answer }
      | none => Except.ok st := rfl

theorem scoreStep_found (qs : List Question) (st : ScoreState) (i : Nat) (s : String)
    (q : Question) (h : question_map qs i = some q) :
    scoreStep qs st { id := some i, selected_option := some s } =
      Except.ok
        { score := if s == q.correct_answer then st.score + 1 else st.score
          correct_answers := dictInsert st.correct_answers i q.correct_answer } := by
  rw [scoreStep_eq, h]

theorem scoreStep_skip (qs : List Question) (st : ScoreState) (i : Nat) (s : String)
    (h : question_map qs i = none) :
    scoreStep qs st { id := some i, selected_option := some s } = Except.ok st := by
  rw [scoreStep_eq, h]

theorem scoreLoop_append (qs : List Question) (l1 l2 : List Submission) :
    ∀ st : ScoreState,
      scoreLoop qs (l1 ++ l2) st =
        match scoreLoop qs l1 st with
        | Except.ok st' => scoreLoop qs l2 st'
        | Except.error e => Except.error e := by
  induction l1 with
  | nil => intro st; rfl
  | cons a rest ih =>
    intro st
    simp only [List.cons_append, scoreLoop]
    cases scoreStep qs st a with
    | ok st' => exact ih st'
    | error e => rfl

theorem scoreLoop_replicate (qs : List Question) (i : Nat) (q : Question) (s : String)
    (h : question_map qs i = some q) :
    ∀ (n : Nat) (st : ScoreState),
      scoreLoop qs (List.replicate n { id := some i, selected_option := some s }) st =
        Except.ok
          { score := st.score + (if s == q.correct_answer then n else 0)
            correct_answers :=
              if n = 0 then st.correct_answers
              else dictInsert st.correct_answers i q.correct_answer } := by
  intro n
  induction n with
  | zero => intro st; cases hc : s == q.correct_answer <;> simp [scoreLoop, hc]
  | succ m ih =>
    intro st
    rw [List.replicate_succ]
    simp only [scoreLoop]
    rw [scoreStep_found qs st i s q h]
    simp only [ih]
    by_cases hm : m = 0 <;> cases hc : s == q.correct_answer <;>
      simp [hm, hc, dictInsert_dictInsert_same] <;> omega

theorem scoreLoop_characterize (qs : List Question) :
    ∀ (subs : List Submission) (st : ScoreState),
      (∀ a ∈ subs, hasFields a = true) →
      ∃ st', scoreLoop qs subs st = Except.ok st' ∧
        st'.score = st.score + subs.countP (correctSub qs) ∧
        ∀ k, dictLookup st'.correct_answers k =
          if subs.any (hitsKey qs k) then
            Option.map Question.correct_answer (question_map qs k)
          else dictLookup st.correct_answers k := by
  intro subs
  induction subs with
  | nil => intro st _; exact ⟨st, rfl, by simp, by simp⟩
  | cons a rest ih =>
    intro st hwf
    have hfa : hasFields a = true := hwf a (List.mem_cons_self a rest)
    have hrest : ∀ b ∈ rest, hasFields b = true :=
      fun b hb => hwf b (List.mem_cons_of_mem a hb)
    obtain ⟨aid, asel⟩ := a
    cases aid with
    | none => simp [hasFields] at hfa
    | some i =>
      cases asel with
      | none => simp [hasFields] at hfa
      | some s =>
        cases hq : question_map qs i with
        | none =>
          obtain ⟨st', hloop, hscore, hmap⟩ := ih st hrest
          refine ⟨st', ?_, ?_, ?_⟩
          · simp only [scoreLoop]
            rw [scoreStep_skip qs st i s hq]
            exact hloop
          · rw [hscore]
            have hca : correctSub qs { id := some i, selected_option := some s } = false := by
              simp [correctSub, hq]
            rw [List.countP_cons, hca]
            simp
          · intro k
            have hhk : hitsKey qs k { id := some i, selected_option := some s } = false := by
              by_cases hk : i = k
              · subst hk; simp [hitsKey, hq]
              · simp [hitsKey, hk]
            rw [List.any_cons, hhk]
            simp only [Bool.false_or]
            exact hmap k
        | some q =>
          set st1 : ScoreState :=
            { score := if s == q.correct_answer then st.score + 1 else st.score
              correct_answers := dictInsert st.correct_answers i q.correct_answer } with hst1
          obtain ⟨st', hloop, hscore, hmap⟩ := ih st1 hrest
          refine ⟨st', ?_, ?_, ?_⟩
          · simp only [scoreLoop]
            rw [scoreStep_found qs st i s q hq]
            exact hloop
          · rw [hscore]
            have hca : correctSub qs { id := some i, selected_option := some s } =
                (s == q.correct_answer) := by
              simp [correctSub, hq]
            rw [List.countP_cons, hca, hst1]
            cases hc : s == q.correct_answer <;> simp [hc] <;> omega
          · intro k
            rw [hmap k, List.any_cons]
            by_cases hk : i = k
            · subst hk
              have hhk : hitsKey qs i { id := some i, selected_option := some s } = true := by
                simp [hitsKey, hq]
              rw [hhk]
              simp only [Bool.true_or, if_true]
              by_cases hr : rest.any (hitsKey qs i) = true
              · rw [if_pos hr]
              · rw [if_neg hr]
                simp [dictLookup_dictInsert, hq]
            · have hhk : hitsKey qs k { id := some i, selected_option := some s } = false := by
                simp [hitsKey, hk]
              rw [hhk]
              simp only [Bool.false_or]
              by_cases hr : rest.any (hitsKey qs k) = true
              · rw [if_pos hr, if_pos hr]
              · rw [if_neg hr, if_neg hr]
                simp [dictLookup_dictInsert, Ne.symm hk]

theorem perm_any_eq {α : Type} (p : α → Bool) {l1 l2 : List α} (h : l1.Perm l2) :
    l1.any p = l2.any p := by
  cases hcase : l1.any p with
  | true =>
    symm
    rw [List.any_eq_true] at hcase ⊢
    obtain ⟨a, ha, hp⟩ := hcase
    exact ⟨a, h.mem_iff.mp ha, hp⟩
  | false =>
    symm
    rw [Bool.eq_false_iff] at hcase ⊢
    intro hany
    apply hcase
    rw [List.any_eq_true] at hany ⊢
    obtain ⟨a, ha, hp⟩ := hany
    exact ⟨a, h.mem_iff.mpr ha, hp⟩

/-! ### The claims -/

/-- Claim C1: for every submission list given to the scorer, the returned
`total` equals the full bank size (5 for the shipped bank), regardless of
how many submissions were provided; on the empty submission list the
result is score 0, total the bank size, and an empty `correct_answers`
mapping. -/
theorem C1_total_is_bank_size (qs : List Question) (subs : List Submission)
    (r : ScoringResult) (h : submit_exam qs subs = Except.ok r) :
    r.total = qs.length ∧ questions.length = 5 ∧
      (subs = [] → r = { score := 0, total := qs.length, correct_answers := [] }) := by
  refine ⟨?_, rfl, ?_⟩
  · unfold submit_exam at h
    cases hsl : scoreLoop qs subs { score := 0, correct_answers := [] } with
    | ok st =>
      rw [hsl] at h
      injection h with h1
      rw [← h1]
    | error e =>
      rw [hsl] at h
      exact Except.noConfusion h
  · intro he
    subst he
    have hempty : submit_exam qs [] =
        Except.ok { score := 0, total := qs.length, correct_answers := [] } := rfl
    rw [hempty] at h
    injection h with h1
    exact h1.symm

/-- Witness for C1 at the shipped bank and the empty submission list. -/
theorem C1_total_is_bank_size_witness :
    ({ score := 0, total := 5, correct_answers := [] } : ScoringResult).total =
        questions.length ∧ questions.length = 5 := by
  have h := C1_total_is_bank_size questions []
      { score := 0, total := 5, correct_answers := [] } rfl
  exact ⟨h.1, h.2.1⟩

/-- Claim C2: a submission whose `question_id` is not in the bank is
skipped silently — no error, no score increment, no `correct_answers`
entry; the rest of the submissions are scored as if it were absent. -/
theorem C2_unknown_id_skipped (qs : List Question) (pre post : List Submission)
    (i : Nat) (s : String) (h : question_map qs i = none) :
    submit_exam qs (pre ++ { id := some i, selected_option := some s } :: post) =
      submit_exam qs (pre ++ post) := by
  unfold submit_exam
  rw [scoreLoop_append, scoreLoop_append]
  cases hpre : scoreLoop qs pre { score := 0, correct_answers := [] } with
  | error e => rfl
  | ok st =>
    simp only [scoreLoop]
    rw [scoreStep_skip qs st i s h]

/-- Witness for C2: submitting the unknown id 999 changes nothing. -/
theorem C2_unknown_id_skipped_witness :
    submit_exam questions
        [ { id := some 999, selected_option := some "Paris" },
          { id := some 2, selected_option := some "Mars" } ] =
      submit_exam questions [ { id := some 2, selected_option := some "Mars" } ] :=
  C2_unknown_id_skipped questions [] [{ id := some 2, selected_option := some "Mars" }]
    999 "Paris" rfl

/-- Claim C3: duplicate `question_id`s referencing a bank question give a
single (last-write-wins) `correct_answers` entry holding the bank answer,
while each duplicate independently contributes 1 to `score` exactly when
its `selected_option` equals the bank answer under exact string equality
(a string differing only in case contributes nothing), so the score can
exceed `total`. -/
theorem C3_duplicates_count_each (qs : List Question) (i : Nat) (q : Question) (n : Nat)
    (h : question_map qs i = some q) (hn : 0 < n) :
    submit_exam qs
        (List.replicate n { id := some i, selected_option := some q.correct_answer }) =
      Except.ok
        { score := n, total := qs.length, correct_answers := [(i, q.correct_answer)] } ∧
    ∀ s : String, s ≠ q.correct_answer →
      submit_exam qs (List.replicate n { id := some i, selected_option := some s }) =
        Except.ok
          { score := 0, total := qs.length, correct_answers := [(i, q.correct_answer)] } := by
  have hn0 : n ≠ 0 := Nat.pos_iff_ne_zero.mp hn
  constructor
  · unfold submit_exam
    rw [scoreLoop_replicate qs i q q.correct_answer h n { score := 0, correct_answers := [] }]
    simp [hn0, dictInsert]
  · intro s hs
    unfold submit_exam
    rw [scoreLoop_replicate qs i q s h n { score := 0, correct_answers := [] }]
    have hbeq : (s == q.correct_answer) = false := beq_eq_false_iff_ne.mpr hs
    simp [hn0, hbeq, dictInsert]

/-- Witness for C3: six identical correct answers to question 1 score 6,
exceeding the total of 5, with a single `correct_answers` entry; the
case-folded answer `paris` scores 0. -/
theorem C3_duplicates_count_each_witness :
    submit_exam questions
        (List.replicate 6 { id := some 1, selected_option := some "Paris" }) =
      Except.ok { score := 6, total := 5, correct_answers := [(1, "Paris")] } ∧
    5 < 6 ∧
    submit_exam questions
        (List.replicate 6 { id := some 1, selected_option := some "paris" }) =
      Except.ok { score := 0, total := 5, correct_answers := [(1, "Paris")] } := by
  have h := C3_duplicates_count_each questions 1
      { id := 1
        question := "What is the capital of France?"
        options := ["Berlin", "Madrid", "Paris", "Rome"]
        correct_answer := "Paris" }
      6 rfl (by decide)
  exact ⟨h.1, by decide, h.2 "paris" (by decide)⟩

/-- Claim C4: on the shipped bank, the submissions
`[{id: 1, selected_option: "Paris"}, {id: 2, selected_option: "Earth"}]`
score 1 out of 5 with `correct_answers = {1: "Paris", 2: "Mars"}`. -/
theorem C4_example_submissions :
    submit_exam questions
        [ { id := some 1, selected_option := some "Paris" },
          { id := some 2, selected_option := some "Earth" } ] =
      Except.ok { score := 1, total := 5, correct_answers := [(1, "Paris"), (2, "Mars")] } :=
  rfl

/-- Claim C5 (code-bug evidence): the spec requires the stored credential
to be a salted one-way hash, never the plaintext secret, but `register`
stores the raw password verbatim (`users[username] = password` in
`backend/app.py`): after registering, the stored value for the username is
the submitted password itself. -/
theorem C5_plaintext_stored :
    register [] { username := some "alice", password := some "hunter2" } =
      (RegisterResponse.created, [("alice", "hunter2")]) ∧
    userLookup
        (register [] { username := some "alice", password := some "hunter2" }).2
        "alice" = some "hunter2" :=
  ⟨rfl, rfl⟩

/-- Claim C6: a login naming an unregistered username and a login naming a
registered username with a wrong password (all fields non-empty) produce
literally the same response — `unauthorized`, HTTP 401 — so a caller
cannot distinguish the two cases. -/
theorem C6_enumeration_safe (users : UserStore) (u1 p1 u2 p2 stored : String)
    (hu1 : u1.isEmpty = false) (hp1 : p1.isEmpty = false)
    (hu2 : u2.isEmpty = false) (hp2 : p2.isEmpty = false)
    (hunknown : userLookup users u1 = none)
    (hreg : userLookup users u2 = some stored) (hwrong : stored ≠ p2) :
    login users { username := some u1, password := some p1 } =
      login users { username := some u2, password := some p2 } ∧
    (login users { username := some u1, password := some p1 }).status = 401 ∧
    login users { username := some u1, password := some p1 } =
      LoginResponse.unauthorized := by
  have h1 : login users { username := some u1, password := some p1 } =
      LoginResponse.unauthorized := by
    simp [login, hu1, hp1, hunknown]
  have h2 : login users { username := some u2, password := some p2 } =
      LoginResponse.unauthorized := by
    have hbeq : (stored == p2) = false := beq_eq_false_iff_ne.mpr hwrong
    simp [login, hu2, hp2, hreg, hbeq]
  refine ⟨h1.trans h2.symm, ?_, h1⟩
  rw [h1]
  rfl

/-- Witness for C6: unknown user `alice` and wrong password for `bob` get
the same 401 response. -/
theorem C6_enumeration_safe_witness :
    login [("bob", "secret")] { username := some "alice", password := some "pw" } =
      login [("bob", "secret")] { username := some "bob", password := some "wrong" } ∧
    (login [("bob", "secret")]
        { username := some "alice", password := some "pw" }).status = 401 := by
  have h := C6_enumeration_safe [("bob", "secret")] "alice" "pw" "bob" "wrong" "secret"
      rfl rfl rfl rfl rfl rfl (by decide)
  exact ⟨h.1, h.2.1⟩

/-- Claim C7: a register or login request with an empty or missing
username or password fails with `invalidInput` (HTTP 400) and leaves the
credential store unchanged (`login` never writes to it at all), and a
duplicate username at register fails with `conflict` (HTTP 409), also
leaving the store unchanged. -/
theorem C7_invalid_input_and_conflict :
    (∀ (users : UserStore) (data : AuthRequest),
        (falsy data.username || falsy data.password) = true →
        register users data = (RegisterResponse.invalidInput, users) ∧
        RegisterResponse.invalidInput.status = 400 ∧
        login users data = LoginResponse.invalidInput ∧
        LoginResponse.invalidInput.status = 400) ∧
    (∀ (users : UserStore) (u p : String),
        u.isEmpty = false → p.isEmpty = false → hasUser users u = true →
        register users { username := some u, password := some p } =
          (RegisterResponse.conflict, users) ∧
        RegisterResponse.conflict.status = 409) := by
  constructor
  · intro users data h
    obtain ⟨un, pw⟩ := data
    refine ⟨?_, rfl, ?_, rfl⟩ <;>
      · cases un with
        | none => rfl
        | some u =>
          cases pw with
          | none => rfl
          | some p =>
            simp only [falsy] at h
            simp [register, login, h]
  · intro users u p hu hp hdup
    refine ⟨?_, rfl⟩
    simp [register, hu, hp, hdup]

/-- Witness for C7: a missing password, an empty username, and a duplicate
username, each against the store `{bob: pw}`. -/
theorem C7_invalid_input_and_conflict_witness :
    register [("bob", "pw")] { username := some "alice", password := none } =
      (RegisterResponse.invalidInput, [("bob", "pw")]) ∧
    register [("bob", "pw")] { username := some "", password := some "x" } =
      (RegisterResponse.invalidInput, [("bob", "pw")]) ∧
    login [("bob", "pw")] { username := some "alice", password := none } =
      LoginResponse.invalidInput ∧
    register [("bob", "pw")] { username := some "bob", password := some "x" } =
      (RegisterResponse.conflict, [("bob", "pw")]) := by
  refine ⟨?_, ?_, ?_, ?_⟩
  · exact (C7_invalid_input_and_conflict.1 [("bob", "pw")]
      { username := some "alice", password := none } (by decide)).1
  · exact (C7_invalid_input_and_conflict.1 [("bob", "pw")]
      { username := some "", password := some "x" } (by decide)).1
  · exact (C7_invalid_input_and_conflict.1 [("bob", "pw")]
      { username := some "alice", password := none } (by decide)).2.2.1
  · exact (C7_invalid_input_and_conflict.2 [("bob", "pw")] "bob" "x" rfl rfl rfl).1

/-- Claim C8: `get_questions` returns every bank question as
`{id, question, options}` in the bank order (same length, pointwise
stripped), its output is unchanged by replacing every `correct_answer` in
the bank (so no correct answer can leak into it), and as a pure function
it is deterministic and side-effect free (two calls coincide). -/
theorem C8_list_questions (qs : List Question) (f : Question → String) :
    (get_questions qs).length = qs.length ∧
    (∀ i : Nat, (get_questions qs)[i]? =
      (qs[i]?).map (fun q => PublicQuestion.mk q.id q.question q.options)) ∧
    get_questions (qs.map (fun q => { q with correct_answer := f q })) =
      get_questions qs ∧
    get_questions qs = get_questions qs := by
  refine ⟨?_, ?_, ?_, rfl⟩
  · simp [get_questions]
  · intro i
    simp [get_questions]
  · simp only [get_questions, List.map_map]
    rfl

/-- Claim C9 (code-bug evidence): a submission entry missing `id` or
`selected_option` makes `submit_exam` raise an uncaught `KeyError` (which
Flask maps to HTTP 500), not the spec-mandated `InvalidInput`/400; the
request fails as a whole — the partial score accumulated before the bad
entry is discarded. -/
theorem C9_missing_field_raises :
    submit_exam questions [{ id := none, selected_option := some "Paris" }] =
      Except.error (PyError.keyError "id") ∧
    submit_exam questions [{ id := some 1, selected_option := none }] =
      Except.error (PyError.keyError "selected_option") ∧
    submit_exam questions
        [ { id := some 1, selected_option := some "Paris" },
          { id := none, selected_option := none } ] =
      Except.error (PyError.keyError "id") :=
  ⟨rfl, rfl, rfl⟩

/-- Claim C10: when every submission carries both fields, the scoring
result is invariant under permutation of the submission list — scores and
totals agree, and the `correct_answers` dicts agree as mappings (the value
written for an id is always the bank answer). -/
theorem C10_permutation_invariant (qs : List Question) (subs1 subs2 : List Submission)
    (hperm : subs1.Perm subs2) (hwf : ∀ a ∈ subs1, hasFields a = true)
    (r1 r2 : ScoringResult)
    (h1 : submit_exam qs subs1 = Except.ok r1)
    (h2 : submit_exam qs subs2 = Except.ok r2) :
    r1.score = r2.score ∧ r1.total = r2.total ∧
      ∀ k, dictLookup r1.correct_answers k = dictLookup r2.correct_answers k := by
  have hwf2 : ∀ a ∈ subs2, hasFields a = true :=
    fun a ha => hwf a (hperm.mem_iff.mpr ha)
  obtain ⟨st1, hl1, hs1, hm1⟩ :=
    scoreLoop_characterize qs subs1 { score := 0, correct_answers := [] } hwf
  obtain ⟨st2, hl2, hs2, hm2⟩ :=
    scoreLoop_characterize qs subs2 { score := 0, correct_answers := [] } hwf2
  unfold submit_exam at h1 h2
  rw [hl1] at h1
  rw [hl2] at h2
  injection h1 with h1e
  injection h2 with h2e
  rw [← h1e, ← h2e]
  refine ⟨?_, rfl, ?_⟩
  · show st1.score = st2.score
    rw [hs1, hs2, hperm.countP_eq]
  · intro k
    show dictLookup st1.correct_answers k = dictLookup st2.correct_answers k
    rw [hm1 k, hm2 k, perm_any_eq (hitsKey qs k) hperm]

/-- Witness for C10: the two example submissions in either order give the
same score, total, and per-key `correct_answers` values. -/
theorem C10_permutation_invariant_witness :
    ({ score := 1, total := 5, correct_answers := [(1, "Paris"), (2, "Mars")] }
        : ScoringResult).score =
      ({ score := 1, total := 5, correct_answers := [(2, "Mars"), (1, "Paris")] }
        : ScoringResult).score ∧
    dictLookup [(1, "Paris"), (2, "Mars")] 1 = dictLookup [(2, "Mars"), (1, "Paris")] 1 ∧
    dictLookup [(1, "Paris"), (2, "Mars")] 2 = dictLookup [(2, "Mars"), (1, "Paris")] 2 := by
  have h := C10_permutation_invariant questions
      [ { id := some 1, selected_option := some "Paris" },
        { id := some 2, selected_option := some "Earth" } ]
      [ { id := some 2, selected_option := some "Earth" },
        { id := some 1, selected_option := some "Paris" } ]
      (List.Perm.swap ({ id := some 2, selected_option := some "Earth" } : Submission)
        ({ id := some 1, selected_option := some "Paris" } : Submission) [])
      (by decide)
      { score := 1, total := 5, correct_answers := [(1, "Paris"), (2, "Mars")] }
      { score := 1, total := 5, correct_answers := [(2, "Mars"), (1, "Paris")] }
      rfl rfl
  exact ⟨h.1, h.2.2 1, h.2.2 2⟩

end ExamApp
